import Mathlib

/-!
Shallow embedding of the go-vcr recorder core
(src/vendor/github.com/dnaeon/go-vcr/recorder/recorder.go).

The recorder sits in place of an HTTP client's transport: in recording mode
it forwards a request to its real destination and appends the exchange to a
cassette; in replaying mode it answers from the cassette without network
access.  The cassette package itself is an external collaborator (its code is
not part of the core); its narrow contract (create-empty, append, find-match,
load, save) is modelled from the specification, and every such definition is
marked `Modelled from the spec`.  The pieces of Go's standard library that
`requestHandler` calls (request dumping/re-parsing, form parsing, the real
HTTP client, reading a body to EOF) are abstracted as oracle functions
supplied by the environment, each of which may fail.
-/

namespace VCR

/-- Go `http.Header` / `url.Values`: a finite map from field names to lists of
values, embedded as an association list. -/
abbrev Header := List (String × List String)

/-- Parsed form data (`url.Values`), same shape as a header map. -/
abbrev FormValues := List (String × List String)

/-- An `io.ReadCloser` body stream.  `contents` are the bytes the stream
yields when read to EOF; `teeWrapped` becomes true once the recorder replaces
the stream by `ioutil.NopCloser(io.TeeReader(...))` (a different object from
the caller's original); `consumed` becomes true once some reader has drained
the stream to EOF. -/
structure BodyStream where
  contents : String
  teeWrapped : Bool
  consumed : Bool
deriving Repr, DecidableEq

/-- The caller's `*http.Request`, restricted to the fields the recorder
reads or writes: `r.Method`, `r.URL.String()`, `r.Header`, `r.Body`. -/
structure HttpRequest where
  method : String
  url : String
  header : Header
  body : Option BodyStream
deriving Repr, DecidableEq

/-- The `*http.Response` returned by the real client on the record path.
`bodyRead` is the outcome of draining `resp.Body` with `ioutil.ReadAll`,
which may fail. -/
structure NetResponse where
  status : String
  statusCode : Nat
  header : Header
  bodyRead : Except String String
deriving Repr

/-- Modelled from the spec: the cassette collaborator's request record — the
captured body bytes, the parsed form fields, and the original request's
headers, URL and method (spec section 3, section 4.3 step 6). -/
structure CassetteRequest where
  body : String
  form : FormValues
  headers : Header
  url : String
  method : String
deriving Repr, DecidableEq

/-- Modelled from the spec: the cassette collaborator's response record —
body, headers, status line and status code (spec section 3). -/
structure CassetteResponse where
  body : String
  headers : Header
  status : String
  code : Nat
deriving Repr, DecidableEq

/-- Modelled from the spec: one completed request/response exchange,
immutable once created (spec section 3). -/
structure Interaction where
  request : CassetteRequest
  response : CassetteResponse
deriving Repr, DecidableEq

/-- Modelled from the spec: a cassette is a named, ordered sequence of
interactions (spec section 3). -/
structure Cassette where
  name : String
  interactions : List Interaction
deriving Repr, DecidableEq

/-- Modelled from the spec: `createEmpty(name)` — `cassette.New` returns an
empty cassette with the given name (spec section 6). -/
def Cassette.new (name : String) : Cassette :=
  { name := name, interactions := [] }

/-- Modelled from the spec: `append(cassette, interaction)` —
`cassette.AddInteraction` appends at the end, in call order
(spec sections 3 and 6). -/
def Cassette.addInteraction (c : Cassette) (i : Interaction) : Cassette :=
  { c with interactions := c.interactions ++ [i] }

/-- Modelled from the spec: `findMatch(cassette, request)` —
`cassette.GetInteraction` is a pure lookup whose matching policy belongs to
the cassette (spec sections 4.3 and 6); following the spec's suggested
policy (section 9) it is taken as method + URL equality, first match in
order, and a miss is surfaced as an error (spec section 7). -/
def Cassette.getInteraction (c : Cassette) (r : HttpRequest) : Except String Interaction :=
  match c.interactions.find? (fun i => i.request.method == r.method && i.request.url == r.url) with
  | some i => Except.ok i
  | none => Except.error "Requested interaction not found"

/-- Recorder states (`ModeRecording`, `ModeReplaying`). -/
inductive Mode where
  | recording
  | replaying
deriving Repr, DecidableEq

/-- The pieces of Go's standard library `requestHandler` uses, each fallible:
`httputil.DumpRequestOut` (request to wire bytes), `http.ReadRequest` (wire
bytes back to an independent request object), `(*http.Request).ParseForm`
(returning the copied request's `PostForm`), and `http.DefaultClient.Do`
(the only step that touches the network). -/
structure Stdlib where
  dumpRequestOut : HttpRequest → Except String String
  readRequest : String → Except String HttpRequest
  parseForm : HttpRequest → Except String FormValues
  clientDo : HttpRequest → Except String NetResponse

/-- The body substitution of recorder.go lines 84-88: when the request
carries a body, replace it by a `NopCloser(TeeReader(body, reqBody))`
wrapper so that bytes read by the real transport are captured on the side. -/
def teeWrap (r : HttpRequest) : HttpRequest :=
  match r.body with
  | none => r
  | some b => { r with body := some { b with teeWrapped := true } }

/-- After `http.DefaultClient.Do` succeeds, the request body stream (if any)
has been drained to EOF by the real transport. -/
def consumeBody (r : HttpRequest) : HttpRequest :=
  { r with body := r.body.map (fun b => { b with consumed := true }) }

/-- What the tee's side buffer `reqBody` holds once the real transport has
drained the request body: the full body bytes, or empty when there was no
body to wrap. -/
def capturedReqBody (r : HttpRequest) : String :=
  match r.body with
  | none => ""
  | some b => b.contents

/-- The interaction literal of recorder.go lines 103-117: the captured
request body bytes, the duplicate's parsed form values, the original
request's headers, URL and method, and the upstream response's body,
headers, status line and status code. -/
def mkInteraction (r : HttpRequest) (postForm : FormValues) (resp : NetResponse)
    (respBody : String) : Interaction :=
  { request := { body := capturedReqBody r
                 form := postForm
                 headers := r.header
                 url := r.url
                 method := r.method }
    response := { body := respBody
                  headers := resp.header
                  status := resp.status
                  code := resp.statusCode } }

/-- Shallow embedding of `requestHandler` (recorder.go lines 61-121).
Besides the interaction-or-error result, it returns the caller's request as
left after the call (its `Body` field is mutated on the record path) and the
cassette as left after the call (an interaction is appended on a successful
record). -/
def requestHandler (lib : Stdlib) (r : HttpRequest) (c : Cassette) (mode : Mode) :
    HttpRequest × Cassette × Except String Interaction :=
  if mode = Mode.replaying then
    (r, c, c.getInteraction r)
  else
    match lib.dumpRequestOut r with
    | Except.error e => (r, c, Except.error e)
    | Except.ok reqBytes =>
      match lib.readRequest reqBytes with
      | Except.error e => (r, c, Except.error e)
      | Except.ok copiedReq =>
        match lib.parseForm copiedReq with
        | Except.error e => (r, c, Except.error e)
        | Except.ok postForm =>
          let r1 := teeWrap r
          match lib.clientDo r1 with
          | Except.error e => (r1, c, Except.error e)
          | Except.ok resp =>
            let r2 := consumeBody r1
            match resp.bodyRead with
            | Except.error e => (r2, c, Except.error e)
            | Except.ok respBody =>
              let interaction := mkInteraction r postForm resp respBody
              (r2, c.addInteraction interaction, Except.ok interaction)

/-- The synthesized `*http.Response` built by `Transport.RoundTrip`
(recorder.go lines 185-196). -/
structure HttpResponse where
  status : String
  statusCode : Nat
  proto : String
  protoMajor : Nat
  protoMinor : Nat
  request : HttpRequest
  header : Header
  close : Bool
  contentLength : Int
  body : BodyStream
deriving Repr, DecidableEq

/-- How `Transport.RoundTrip` terminates.  Go's signature is
`(*http.Response, error)`, so an ordinary error return (`err`) is possible
in principle, but the source never produces one: on any capture failure it
calls `panic`, an uncatchable process abort (`panicked`). -/
inductive RoundTripOutcome where
  | ok (resp : HttpResponse)
  | err (e : String)
  | panicked (msg : String)
deriving Repr, DecidableEq

/-- `Transport` (recorder.go lines 167-171): a cassette reference and the
mode, nothing else. -/
structure Transport where
  c : Cassette
  mode : Mode
deriving Repr, DecidableEq

/-- Shallow embedding of `Transport.RoundTrip` (recorder.go lines 173-197).
Returns the request as left after the round trip, the transport with its
cassette as left after the round trip, and the outcome.  On a capture
failure the source panics with `"Failed to process request for URL %s: %s"`;
on success it synthesizes a response from the stored interaction: status
line, code and headers from the interaction, protocol pinned to HTTP/1.0,
`Close` set, content length the stored body's length, and the body a fresh
`NopCloser` over a buffer of the stored body bytes. -/
def Transport.roundTrip (lib : Stdlib) (t : Transport) (r : HttpRequest) :
    HttpRequest × Transport × RoundTripOutcome :=
  let hres := requestHandler lib r t.c t.mode
  (hres.1, { t with c := hres.2.1 },
    match hres.2.2 with
    | Except.error e =>
        RoundTripOutcome.panicked
          ("Failed to process request for URL " ++ r.url ++ ": " ++ e)
    | Except.ok interaction =>
        RoundTripOutcome.ok
          { status := interaction.response.status
            statusCode := interaction.response.code
            proto := "HTTP/1.0"
            protoMajor := 1
            protoMinor := 0
            request := hres.1
            header := interaction.response.headers
            close := true
            contentLength := (interaction.response.body.length : Int)
            body := { contents := interaction.response.body
                      teeWrapped := false
                      consumed := false } })

/-- Outcome of the `os.Stat` probe on the cassette file, classified the way
the use site classifies it: success, an error for which `os.IsNotExist`
holds, or any other error (e.g. permission denied). -/
inductive StatResult where
  | ok
  | errNotExist
  | errOther
deriving Repr, DecidableEq

/-- `Recorder` (recorder.go lines 49-58): operating mode, cassette, and the
transport exposed to clients. -/
structure Recorder where
  mode : Mode
  cassette : Cassette
  transport : Transport
deriving Repr, DecidableEq

/-- Shallow embedding of `New` (recorder.go lines 124-154).  The filesystem
probe `stat` and the cassette collaborator's `load` (modelled from the spec,
section 6) are oracles.  The probe is applied to the derived cassette file
name `cassetteName ++ ".yaml"`; `load` is applied to the cassette name
itself, as in the source. -/
def New (stat : String → StatResult) (load : String → Except String Cassette)
    (cassetteName : String) : Except String Recorder :=
  let cassetteFile := cassetteName ++ ".yaml"
  if stat cassetteFile = StatResult.errNotExist then
    let c := Cassette.new cassetteName
    Except.ok { mode := Mode.recording, cassette := c
                transport := { c := c, mode := Mode.recording } }
  else
    match load cassetteName with
    | Except.error e => Except.error e
    | Except.ok c =>
        Except.ok { mode := Mode.replaying, cassette := c
                    transport := { c := c, mode := Mode.replaying } }

/-- Shallow embedding of `Recorder.Stop` (recorder.go lines 157-165).
`save` is the cassette collaborator's persist operation (modelled from the
spec, section 6).  The first component of the result is the list of save
calls issued — the storage writes performed by this call — and the second is
the returned error value. -/
def Recorder.stop (save : Cassette → Except String Unit) (r : Recorder) :
    List Cassette × Except String Unit :=
  if r.mode = Mode.recording then
    match save r.cassette with
    | Except.error e => ([r.cassette], Except.error e)
    | Except.ok _ => ([r.cassette], Except.ok ())
  else
    ([], Except.ok ())

/-- Shallow embedding of `Transport.CancelRequest` (recorder.go lines
199-202): a no-op. -/
def Transport.cancelRequest (t : Transport) (_r : HttpRequest) : Transport := t

/-- Modelled from the spec: durable cassette storage (spec section 6) — a
named persistent resource with save-under-name and load-by-name, where
loading what was saved yields it back. -/
abbrev Storage := List (String × Cassette)

/-- Modelled from the spec: `save(cassette)` writes the cassette under its
name (spec section 6). -/
def Storage.save (st : Storage) (c : Cassette) : Storage :=
  (c.name, c) :: st

/-- Modelled from the spec: `load(name)` returns the stored cassette or a
failure when nothing is stored under that name (spec section 6). -/
def Storage.load (st : Storage) (name : String) : Except String Cassette :=
  match st.find? (fun p => p.1 == name) with
  | some p => Except.ok p.2
  | none => Except.error "no such cassette"

/-- Modelled from the spec: the `exists` probe (spec section 6), reported in
`os.Stat` terms — the cassette file `name ++ ".yaml"` exists exactly when a
cassette is stored under `name`. -/
def Storage.stat (st : Storage) (file : String) : StatResult :=
  if st.any (fun p => p.1 ++ ".yaml" == file) then StatResult.ok
  else StatResult.errNotExist

/-- The record-then-replay experiment of spec section 8: create a recorder
over storage `st0`, round-trip `r` once, stop it (persisting every save call
it issues into the storage), create a fresh recorder over the updated
storage, and round-trip `r` again.  Returns the cassette held by the first
recorder after its round trip together with the second round trip's
outcome. -/
def recordThenReplay (lib : Stdlib) (name : String) (r : HttpRequest) (st0 : Storage) :
    Except String (Cassette × RoundTripOutcome) :=
  match New (Storage.stat st0) (Storage.load st0) name with
  | Except.error e => Except.error e
  | Except.ok rec1 =>
      let t1 := (Transport.roundTrip lib rec1.transport r).2.1
      let rec2 : Recorder := { rec1 with cassette := t1.c, transport := t1 }
      let st1 := (Recorder.stop (fun _ => Except.ok ()) rec2).1.foldl Storage.save st0
      match New (Storage.stat st1) (Storage.load st1) name with
      | Except.error e => Except.error e
      | Except.ok rec3 =>
          Except.ok (rec2.cassette, (Transport.roundTrip lib rec3.transport r).2.2)

/-- Run a sequence of requests through one transport, threading the cassette
state from each round trip into the next, and collect the outcomes. -/
def runRequests (lib : Stdlib) (t : Transport) : List HttpRequest → Transport × List RoundTripOutcome
  | [] => (t, [])
  | r :: rest =>
      let step := Transport.roundTrip lib t r
      let tail := runRequests lib step.2.1 rest
      (tail.1, step.2.2 :: tail.2)

/-! Concrete sample data, used by the witnesses. -/

/-- A sample bodyless GET request. -/
def demoReq : HttpRequest :=
  { method := "GET", url := "http://example.test/a"
    header := [("Accept", ["*/*"])], body := none }

/-- A sample request body stream, still the caller's original object. -/
def demoBody : BodyStream :=
  { contents := "a=1", teeWrapped := false, consumed := false }

/-- A sample POST request carrying a body. -/
def demoReqPost : HttpRequest :=
  { method := "POST", url := "http://example.test/form"
    header := [("Content-Type", ["application/x-www-form-urlencoded"])]
    body := some demoBody }

/-- A sample upstream response whose body reads "ok". -/
def demoNetResp : NetResponse :=
  { status := "200 OK", statusCode := 200
    header := [("Content-Type", ["text/plain"])]
    bodyRead := Except.ok "ok" }

/-- A sample standard-library environment in which every step succeeds and
the real call answers with `demoNetResp`. -/
def demoLib : Stdlib :=
  { dumpRequestOut := fun _ => Except.ok "wire-bytes"
    readRequest := fun _ => Except.ok demoReq
    parseForm := fun _ => Except.ok [("a", ["1"])]
    clientDo := fun _ => Except.ok demoNetResp }

/-- A sample environment in which the real network call fails. -/
def demoLibNetFail : Stdlib :=
  { demoLib with clientDo := fun _ => Except.error "connection refused" }

/-- The interaction that recording `demoReq` against `demoLib` produces. -/
def demoInteraction : Interaction :=
  mkInteraction demoReq [("a", ["1"])] demoNetResp "ok"

/-- A cassette already holding `demoInteraction`. -/
def demoCassette : Cassette :=
  (Cassette.new "cass").addInteraction demoInteraction

/-- A replaying transport over `demoCassette`. -/
def demoTransportRep : Transport :=
  { c := demoCassette, mode := Mode.replaying }

/-- A replaying recorder over `demoCassette`. -/
def demoRecorderRep : Recorder :=
  { mode := Mode.replaying, cassette := demoCassette, transport := demoTransportRep }

/-- A recording recorder over `demoCassette`. -/
def demoRecorderRec : Recorder :=
  { mode := Mode.recording, cassette := demoCassette
    transport := { c := demoCassette, mode := Mode.recording } }

/-- Helper: on the record path, when every standard-library step succeeds,
`requestHandler` returns the tee-wrapped and drained request, appends
exactly the interaction built by `mkInteraction`, and returns that
interaction. -/
theorem requestHandler_record_eq (lib : Stdlib) (r : HttpRequest) (c : Cassette)
    (s : String) (cr : HttpRequest) (pf : FormValues) (resp : NetResponse) (rb : String)
    (hdump : lib.dumpRequestOut r = Except.ok s)
    (hread : lib.readRequest s = Except.ok cr)
    (hform : lib.parseForm cr = Except.ok pf)
    (hdo : lib.clientDo (teeWrap r) = Except.ok resp)
    (hrb : resp.bodyRead = Except.ok rb) :
    requestHandler lib r c Mode.recording
      = (consumeBody (teeWrap r),
         c.addInteraction (mkInteraction r pf resp rb),
         Except.ok (mkInteraction r pf resp rb)) := by
  simp [requestHandler, hdump, hread, hform, hdo, hrb]

/-- Claim C1 (code_bug): the specification requires every per-request
capture failure to come back from `Transport.RoundTrip` as an ordinary
error result, but the source panics instead.  At the concrete failing
input — replaying mode, empty cassette, so the lookup misses —
the embedded `RoundTrip` ends in an uncatchable process abort and in
particular never yields an ordinary error result. -/
theorem roundTrip_panic_on_capture_failure :
    (Transport.roundTrip demoLib { c := Cassette.new "cass", mode := Mode.replaying } demoReq).2.2
      = RoundTripOutcome.panicked
          "Failed to process request for URL http://example.test/a: Requested interaction not found"
    ∧ ∀ e, (Transport.roundTrip demoLib { c := Cassette.new "cass", mode := Mode.replaying } demoReq).2.2
        ≠ RoundTripOutcome.err e := by
  have h1 : (Transport.roundTrip demoLib { c := Cassette.new "cass", mode := Mode.replaying } demoReq).2.2
      = RoundTripOutcome.panicked
          "Failed to process request for URL http://example.test/a: Requested interaction not found" := by
    decide
  refine ⟨h1, fun e h => ?_⟩
  rw [h1] at h
  simp at h

/-- Claim C2: recording a request/response pair over fresh storage,
persisting the cassette at stop, and replaying the same request through a
fresh recorder over the persisted cassette yields a response whose status
code, headers and body are identical to the recorded interaction's. -/
theorem round_trip_law (lib : Stdlib) (name : String) (r : HttpRequest) (st0 : Storage)
    (hstat : Storage.stat st0 (name ++ ".yaml") = StatResult.errNotExist)
    (s : String) (cr : HttpRequest) (pf : FormValues) (resp : NetResponse) (rb : String)
    (hdump : lib.dumpRequestOut r = Except.ok s)
    (hread : lib.readRequest s = Except.ok cr)
    (hform : lib.parseForm cr = Except.ok pf)
    (hdo : lib.clientDo (teeWrap r) = Except.ok resp)
    (hrb : resp.bodyRead = Except.ok rb) :
    ∃ i resp2,
      recordThenReplay lib name r st0
        = Except.ok ((Cassette.new name).addInteraction i, RoundTripOutcome.ok resp2) ∧
      resp2.statusCode = i.response.code ∧
      resp2.header = i.response.headers ∧
      resp2.body.contents = i.response.body ∧
      resp2.status = i.response.status := by
  have hany : (st0.any fun p => p.1 ++ ".yaml" == name ++ ".yaml") = false := by
    cases h : st0.any fun p => p.1 ++ ".yaml" == name ++ ".yaml" with
    | false => rfl
    | true => rw [Storage.stat, h] at hstat; simp at hstat
  refine ⟨mkInteraction r pf resp rb,
          { status := resp.status, statusCode := resp.statusCode, proto := "HTTP/1.0"
            protoMajor := 1, protoMinor := 0, request := r
            header := resp.header, close := true
            contentLength := (rb.length : Int)
            body := { contents := rb, teeWrapped := false, consumed := false } },
          ?_, rfl, rfl, rfl, rfl⟩
  simp [recordThenReplay, Transport.roundTrip, requestHandler,
        Recorder.stop, Storage.save, Storage.stat, Storage.load, New,
        Cassette.new, Cassette.addInteraction, Cassette.getInteraction, mkInteraction,
        List.find?, hany, hdump, hread, hform, hdo, hrb]

/-- Witness for Claim C2 at a concrete input: the section 8 scenario,
`GET http://example.test/a` recorded against a backend answering 200/"ok"
over empty storage, then replayed through a fresh recorder. -/
theorem round_trip_law_witness :
    Storage.stat [] ("cass" ++ ".yaml") = StatResult.errNotExist ∧
    demoLib.dumpRequestOut demoReq = Except.ok "wire-bytes" ∧
    demoLib.readRequest "wire-bytes" = Except.ok demoReq ∧
    demoLib.parseForm demoReq = Except.ok [("a", ["1"])] ∧
    demoLib.clientDo (teeWrap demoReq) = Except.ok demoNetResp ∧
    demoNetResp.bodyRead = Except.ok "ok" ∧
    (∃ i resp2,
      recordThenReplay demoLib "cass" demoReq []
        = Except.ok ((Cassette.new "cass").addInteraction i, RoundTripOutcome.ok resp2) ∧
      resp2.statusCode = i.response.code ∧
      resp2.header = i.response.headers ∧
      resp2.body.contents = i.response.body ∧
      resp2.status = i.response.status) :=
  ⟨rfl, rfl, rfl, rfl, rfl, rfl,
    round_trip_law demoLib "cass" demoReq [] rfl "wire-bytes" demoReq [("a", ["1"])]
      demoNetResp "ok" rfl rfl rfl rfl rfl⟩

/-- Claim C3: in replaying mode no sequence of round trips changes the
transport (hence the cassette's in-memory interaction list), the capture
function is a pure lookup, and stopping a replaying recorder issues zero
storage writes and succeeds. -/
theorem replay_never_mutates (lib : Stdlib) (t : Transport) (ht : t.mode = Mode.replaying)
    (rs : List HttpRequest) (save : Cassette → Except String Unit)
    (rec : Recorder) (hrec : rec.mode = Mode.replaying) :
    (runRequests lib t rs).1 = t ∧
    (∀ r, requestHandler lib r t.c t.mode = (r, t.c, t.c.getInteraction r)) ∧
    Recorder.stop save rec = ([], Except.ok ()) := by
  obtain ⟨tc, tm⟩ := t
  have ht2 : tm = Mode.replaying := ht
  subst ht2
  refine ⟨?_, ?_, ?_⟩
  · induction rs with
    | nil => rfl
    | cons r rest ih => exact ih
  · intro r
    rfl
  · simp [Recorder.stop, hrec]

/-- Witness for Claim C3: two replayed requests and a stop with a save
operation that would fail if it were ever invoked. -/
theorem replay_never_mutates_witness :
    demoTransportRep.mode = Mode.replaying ∧
    demoRecorderRep.mode = Mode.replaying ∧
    ((runRequests demoLib demoTransportRep [demoReq, demoReq]).1 = demoTransportRep ∧
     (∀ r, requestHandler demoLib r demoTransportRep.c demoTransportRep.mode
        = (r, demoTransportRep.c, demoTransportRep.c.getInteraction r)) ∧
     Recorder.stop (fun _ => Except.error "disk full") demoRecorderRep = ([], Except.ok ())) :=
  ⟨rfl, rfl,
    replay_never_mutates demoLib demoTransportRep rfl [demoReq, demoReq]
      (fun _ => Except.error "disk full") demoRecorderRep rfl⟩

/-- Claim C4: `New` probes the storage key derived from the name; on
definite non-existence it returns a recording recorder over a fresh empty
cassette, otherwise it loads — surfacing a load failure with no recorder —
and on success returns a replaying recorder; in both success cases the
transport is bound to the same cassette and mode. -/
theorem new_create_contract (stat : String → StatResult)
    (load : String → Except String Cassette) (name : String) :
    (stat (name ++ ".yaml") = StatResult.errNotExist →
      New stat load name = Except.ok
        { mode := Mode.recording, cassette := Cassette.new name
          transport := { c := Cassette.new name, mode := Mode.recording } } ∧
      (Cassette.new name).interactions = []) ∧
    (stat (name ++ ".yaml") ≠ StatResult.errNotExist →
      (∀ e, load name = Except.error e → New stat load name = Except.error e) ∧
      (∀ c, load name = Except.ok c → New stat load name = Except.ok
        { mode := Mode.replaying, cassette := c
          transport := { c := c, mode := Mode.replaying } })) := by
  constructor
  · intro h
    refine ⟨?_, rfl⟩
    simp [New, h]
  · intro h
    constructor
    · intro e he
      simp [New, h, he]
    · intro c hc
      simp [New, h, hc]

/-- Witness for Claim C4: both creation branches at concrete oracles —
absent storage yields a recording recorder, a failing load is surfaced. -/
theorem new_create_contract_witness :
    (New (fun _ => StatResult.errNotExist) (fun _ => Except.error "corrupt") "cass"
      = Except.ok
        { mode := Mode.recording, cassette := Cassette.new "cass"
          transport := { c := Cassette.new "cass", mode := Mode.recording } }) ∧
    (New (fun _ => StatResult.ok) (fun _ => Except.error "corrupt") "cass"
      = Except.error "corrupt") :=
  ⟨((new_create_contract (fun _ => StatResult.errNotExist)
      (fun _ => Except.error "corrupt") "cass").1 rfl).1,
   ((new_create_contract (fun _ => StatResult.ok)
      (fun _ => Except.error "corrupt") "cass").2 (by decide)).1 "corrupt" rfl⟩

/-- Claim C5: `Stop` writes to storage exactly when the mode is recording —
surfacing a save failure — and in replaying mode performs no write and
always succeeds. -/
theorem stop_persistence_contract (save : Cassette → Except String Unit) (r : Recorder) :
    ((Recorder.stop save r).1 ≠ [] ↔ r.mode = Mode.recording) ∧
    (r.mode = Mode.recording → (Recorder.stop save r).1 = [r.cassette] ∧
      (∀ e, save r.cassette = Except.error e → (Recorder.stop save r).2 = Except.error e) ∧
      (save r.cassette = Except.ok () → (Recorder.stop save r).2 = Except.ok ())) ∧
    (r.mode = Mode.replaying → Recorder.stop save r = ([], Except.ok ())) := by
  unfold Recorder.stop
  rcases hm : r.mode with _ | _
  · simp only [hm, if_pos rfl]
    refine ⟨?_, ?_, ?_⟩
    · cases hs : save r.cassette <;> simp
    · intro _
      cases hs : save r.cassette <;> simp_all
    · intro h; cases h
  · simp [hm]

/-- Witness for Claim C5: a failing save is surfaced by a recording
recorder's stop, and a replaying recorder's stop with the same failing save
performs zero writes and succeeds. -/
theorem stop_persistence_contract_witness :
    demoRecorderRec.mode = Mode.recording ∧
    (Recorder.stop (fun _ => Except.error "disk full") demoRecorderRec).1
      = [demoRecorderRec.cassette] ∧
    (Recorder.stop (fun _ => Except.error "disk full") demoRecorderRec).2
      = Except.error "disk full" ∧
    Recorder.stop (fun _ => Except.error "disk full") demoRecorderRep = ([], Except.ok ()) :=
  ⟨rfl,
   ((stop_persistence_contract (fun _ => Except.error "disk full") demoRecorderRec).2.1 rfl).1,
   ((stop_persistence_contract (fun _ => Except.error "disk full") demoRecorderRec).2.1 rfl).2.1
     "disk full" rfl,
   (stop_persistence_contract (fun _ => Except.error "disk full") demoRecorderRep).2.2 rfl⟩

/-- Claim C6: in recording mode a network failure is surfaced by the
capture function and the cassette comes back unchanged — no interaction is
appended. -/
theorem record_network_failure_no_append (lib : Stdlib) (r : HttpRequest) (c : Cassette)
    (s : String) (cr : HttpRequest) (pf : FormValues) (e : String)
    (hdump : lib.dumpRequestOut r = Except.ok s)
    (hread : lib.readRequest s = Except.ok cr)
    (hform : lib.parseForm cr = Except.ok pf)
    (hdo : lib.clientDo (teeWrap r) = Except.error e) :
    requestHandler lib r c Mode.recording = (teeWrap r, c, Except.error e) := by
  simp [requestHandler, hdump, hread, hform, hdo]

/-- Witness for Claim C6: a concrete refused connection during recording
leaves the cassette untouched and returns the failure. -/
theorem record_network_failure_no_append_witness :
    demoLibNetFail.dumpRequestOut demoReqPost = Except.ok "wire-bytes" ∧
    demoLibNetFail.readRequest "wire-bytes" = Except.ok demoReq ∧
    demoLibNetFail.parseForm demoReq = Except.ok [("a", ["1"])] ∧
    demoLibNetFail.clientDo (teeWrap demoReqPost) = Except.error "connection refused" ∧
    requestHandler demoLibNetFail demoReqPost (Cassette.new "cass") Mode.recording
      = (teeWrap demoReqPost, Cassette.new "cass", Except.error "connection refused") :=
  ⟨rfl, rfl, rfl, rfl,
    record_network_failure_no_append demoLibNetFail demoReqPost (Cassette.new "cass")
      "wire-bytes" demoReq [("a", ["1"])] "connection refused" rfl rfl rfl rfl⟩

/-- Claim C7: on every successful capture, the synthesized response takes
status line, status code and headers from the stored interaction, pins the
protocol to HTTP/1.0, carries a fresh unconsumed body stream over the
stored body bytes with matching content length, and is marked Close. -/
theorem roundTrip_response_synthesis (lib : Stdlib) (t : Transport) (r : HttpRequest)
    (i : Interaction)
    (h : (requestHandler lib r t.c t.mode).2.2 = Except.ok i) :
    ∃ resp, (Transport.roundTrip lib t r).2.2 = RoundTripOutcome.ok resp ∧
      resp.status = i.response.status ∧
      resp.statusCode = i.response.code ∧
      resp.header = i.response.headers ∧
      resp.proto = "HTTP/1.0" ∧ resp.protoMajor = 1 ∧ resp.protoMinor = 0 ∧
      resp.body = { contents := i.response.body, teeWrapped := false, consumed := false } ∧
      resp.contentLength = (i.response.body.length : Int) ∧
      resp.close = true := by
  have h2 : (Transport.roundTrip lib t r).2.2 = RoundTripOutcome.ok
      { status := i.response.status, statusCode := i.response.code, proto := "HTTP/1.0"
        protoMajor := 1, protoMinor := 0, request := (requestHandler lib r t.c t.mode).1
        header := i.response.headers, close := true
        contentLength := (i.response.body.length : Int)
        body := { contents := i.response.body, teeWrapped := false, consumed := false } } := by
    simp only [Transport.roundTrip, h]
  exact ⟨_, h2, rfl, rfl, rfl, rfl, rfl, rfl, rfl, rfl, rfl⟩

/-- Witness for Claim C7: replaying `demoReq` over `demoCassette` captures
`demoInteraction`, and the synthesized response is checked against it. -/
theorem roundTrip_response_synthesis_witness :
    (requestHandler demoLib demoReq demoTransportRep.c demoTransportRep.mode).2.2
      = Except.ok demoInteraction ∧
    (∃ resp, (Transport.roundTrip demoLib demoTransportRep demoReq).2.2
        = RoundTripOutcome.ok resp ∧
      resp.status = demoInteraction.response.status ∧
      resp.statusCode = demoInteraction.response.code ∧
      resp.header = demoInteraction.response.headers ∧
      resp.proto = "HTTP/1.0" ∧ resp.protoMajor = 1 ∧ resp.protoMinor = 0 ∧
      resp.body = { contents := demoInteraction.response.body
                    teeWrapped := false, consumed := false } ∧
      resp.contentLength = (demoInteraction.response.body.length : Int) ∧
      resp.close = true) := by
  have h : (requestHandler demoLib demoReq demoTransportRep.c demoTransportRep.mode).2.2
      = Except.ok demoInteraction := rfl
  exact ⟨h, roundTrip_response_synthesis demoLib demoTransportRep demoReq demoInteraction h⟩

/-- Claim C8: recording a request that carries no body attempts no body
capture — the request object is returned untouched — and succeeds with an
interaction whose captured request body is empty. -/
theorem record_empty_body (lib : Stdlib) (r : HttpRequest) (c : Cassette)
    (s : String) (cr : HttpRequest) (pf : FormValues) (resp : NetResponse) (rb : String)
    (hnil : r.body = none)
    (hdump : lib.dumpRequestOut r = Except.ok s)
    (hread : lib.readRequest s = Except.ok cr)
    (hform : lib.parseForm cr = Except.ok pf)
    (hdo : lib.clientDo (teeWrap r) = Except.ok resp)
    (hrb : resp.bodyRead = Except.ok rb) :
    ∃ i, requestHandler lib r c Mode.recording = (r, c.addInteraction i, Except.ok i) ∧
      i.request.body = "" := by
  have htee : teeWrap r = r := by
    simp [teeWrap, hnil]
  have hcons : consumeBody r = r := by
    cases r
    simp_all [consumeBody]
  have hcap : capturedReqBody r = "" := by
    simp [capturedReqBody, hnil]
  rw [htee] at hdo
  refine ⟨{ request := { body := "", form := pf, headers := r.header
                         url := r.url, method := r.method }
            response := { body := rb, headers := resp.header
                          status := resp.status, code := resp.statusCode } },
          ?_, rfl⟩
  simp [requestHandler, mkInteraction, hdump, hread, hform, hdo, hrb, htee, hcons, hcap]

/-- Witness for Claim C8: recording the bodyless `demoReq`. -/
theorem record_empty_body_witness :
    demoReq.body = none ∧
    (∃ i, requestHandler demoLib demoReq (Cassette.new "cass") Mode.recording
        = (demoReq, (Cassette.new "cass").addInteraction i, Except.ok i) ∧
      i.request.body = "") :=
  ⟨rfl,
    record_empty_body demoLib demoReq (Cassette.new "cass") "wire-bytes" demoReq
      [("a", ["1"])] demoNetResp "ok" rfl rfl rfl rfl rfl rfl⟩

/-- Claim C9: in recording mode, a request carrying a body has its Body
field replaced by the tee wrapper, and once the real call completes the
body held by the caller's request object is the substituted, consumed
wrapper — no longer the original stream. -/
theorem record_body_tee_mutation (lib : Stdlib) (r : HttpRequest) (c : Cassette)
    (b : BodyStream) (s : String) (cr : HttpRequest) (pf : FormValues) (resp : NetResponse)
    (hb : r.body = some b) (hwrap : b.teeWrapped = false)
    (hdump : lib.dumpRequestOut r = Except.ok s)
    (hread : lib.readRequest s = Except.ok cr)
    (hform : lib.parseForm cr = Except.ok pf)
    (hdo : lib.clientDo (teeWrap r) = Except.ok resp) :
    (requestHandler lib r c Mode.recording).1 =
      { r with body := some { b with teeWrapped := true, consumed := true } } ∧
    (requestHandler lib r c Mode.recording).1.body ≠ r.body := by
  have h1 : (requestHandler lib r c Mode.recording).1 =
      { r with body := some { b with teeWrapped := true, consumed := true } } := by
    simp only [teeWrap, hb] at hdo
    cases hbr : resp.bodyRead with
    | error e =>
        simp [requestHandler, hdump, hread, hform, hdo, hbr, teeWrap, consumeBody, hb]
    | ok rb =>
        simp [requestHandler, hdump, hread, hform, hdo, hbr, teeWrap, consumeBody, hb]
  refine ⟨h1, ?_⟩
  rw [h1]
  obtain ⟨bc, bt, bcons⟩ := b
  simp_all

/-- Witness for Claim C9: recording `demoReqPost`, whose body is the
caller's original (not yet tee-wrapped) stream. -/
theorem record_body_tee_mutation_witness :
    demoReqPost.body = some demoBody ∧
    demoBody.teeWrapped = false ∧
    ((requestHandler demoLib demoReqPost (Cassette.new "cass") Mode.recording).1 =
        { demoReqPost with
            body := some { demoBody with teeWrapped := true, consumed := true } } ∧
      (requestHandler demoLib demoReqPost (Cassette.new "cass") Mode.recording).1.body
        ≠ demoReqPost.body) :=
  ⟨rfl, rfl,
    record_body_tee_mutation demoLib demoReqPost (Cassette.new "cass") demoBody
      "wire-bytes" demoReq [("a", ["1"])] demoNetResp rfl rfl rfl rfl rfl rfl⟩

/-- Claim C10: a recording recorder arises only when the stat probe reports
definite non-existence; any other probe error sends creation down the load
path, where a failing load aborts creation and a successful load yields a
replaying recorder. -/
theorem new_mode_probe_not_exist_only (stat : String → StatResult)
    (load : String → Except String Cassette) (name : String) :
    (∀ rec, New stat load name = Except.ok rec → rec.mode = Mode.recording →
      stat (name ++ ".yaml") = StatResult.errNotExist) ∧
    (stat (name ++ ".yaml") = StatResult.errOther →
      (∀ e, load name = Except.error e → New stat load name = Except.error e) ∧
      (∀ c, load name = Except.ok c → New stat load name = Except.ok
        { mode := Mode.replaying, cassette := c
          transport := { c := c, mode := Mode.replaying } })) := by
  constructor
  · intro rec hok hmode
    by_cases h : stat (name ++ ".yaml") = StatResult.errNotExist
    · exact h
    · exfalso
      rw [New] at hok
      simp only [if_neg h] at hok
      cases hl : load name with
      | error e => rw [hl] at hok; cases hok
      | ok c =>
          rw [hl] at hok
          cases hok
          cases hmode
  · intro h
    have hne : stat (name ++ ".yaml") ≠ StatResult.errNotExist := by
      rw [h]; decide
    constructor
    · intro e he; simp [New, hne, he]
    · intro c hc; simp [New, hne, hc]

/-- Witness for Claim C10: a permission-denied style probe error makes
creation take the load path, so a failing load aborts creation instead of
entering recording mode. -/
theorem new_mode_probe_not_exist_only_witness :
    (fun _ : String => StatResult.errOther) ("cass" ++ ".yaml") = StatResult.errOther ∧
    New (fun _ => StatResult.errOther) (fun _ => Except.error "permission denied") "cass"
      = Except.error "permission denied" :=
  ⟨rfl,
    ((new_mode_probe_not_exist_only (fun _ => StatResult.errOther)
        (fun _ => Except.error "permission denied") "cass").2 rfl).1
      "permission denied" rfl⟩

end VCR
